import Mathlib

/-!
Verification of the upload-and-poll workflow of `app.py`
(`show_extract_orders_page`, lines 381-513, and `make_api_request`,
lines 105-130).

The polling loop of the source is:

```
max_polls = 60
poll_count = 0
while poll_count < max_polls:
    time.sleep(15)
    poll_count += 1
    status_response = make_api_request(".../{id}/")
    if status_response and status_response.status_code == 200:
        status_data = status_response.json()          -- may raise
        progress = min(poll_count / max_polls, 0.90)
        progress_bar.progress(progress)               -- observation emitted
        progress_metric.metric(...)
        if status_data.get('is_processed'):
            progress_bar.progress(1.0); break         -- Completed
        elif status_data.get('processing_error'):
            break                                     -- Failed(reason)
        else: status_text.info(...)
    if poll_count % 4 == 0: status_text.info(...)
if poll_count >= max_polls:
    status_text.warning("... taking longer than expected ...")
```

`make_api_request` returns `None` on connection errors, timeouts and other
request exceptions; a non-200 status code also skips the response block.
Both are modelled as `QueryResult.failure`.  A 200 response whose body the
`.json()` call cannot parse raises an uncaught exception, modelled as
`QueryResult.malformed`.  Machine reals of the source are modelled as exact
rationals (the source's progress values `k/60` and `0.90` are all exactly
representable comparisons that agree with the rational results).
-/

namespace OrdersApp

/-- Parsed body of a 200 status response: the truthiness of
`status_data.get('is_processed')` and the value of
`status_data.get('processing_error')` (absent or JSON null modelled as
`none`). -/
structure StatusData where
  is_processed : Bool
  processing_error : Option String
deriving DecidableEq, Repr

/-- Result of one status query (`make_api_request` on the chatfile detail
endpoint): `failure` is a `None` return (connection error / timeout /
request exception) or a non-200 status code; `malformed` is a 200 response
whose `.json()` call raises; `success d` is a 200 response with parsed
body `d`. -/
inductive QueryResult where
  | failure : QueryResult
  | malformed : QueryResult
  | success : StatusData → QueryResult
deriving DecidableEq, Repr

/-- Python truthiness of `status_data.get('processing_error')` together with
the reason string: `None` and the empty string are falsy. -/
def truthyErr : Option String → Option String
  | none => none
  | some s => if s = "" then none else some s

/-- A query result the loop treats as inconclusive (continue polling):
either a failed query, or a 200 body with falsy `is_processed` and falsy
`processing_error`. -/
def QueryResult.inconclusive : QueryResult → Bool
  | .failure => true
  | .malformed => false
  | .success d => !d.is_processed && (truthyErr d.processing_error).isNone

/-- Python's two-argument `min` on rationals: `min(a, b)` returns `a`
when `a <= b` and `b` otherwise. -/
def pymin (a b : ℚ) : ℚ := if a ≤ b then a else b

/-- The progress fraction computed on attempt `k` of `N`
(`min(poll_count / max_polls, 0.90)` at source line 435), built from the
kernel-computable `mkRat` so that concrete runs evaluate. -/
def progressAt (k N : ℕ) : ℚ := pymin (mkRat k N) (mkRat 9 10)

/-- One progress emission (`progress_bar.progress` + `progress_metric.metric`
at source lines 435-437): the attempt number and the emitted fraction. -/
structure Obs where
  attempt : ℕ
  progress : ℚ
deriving DecidableEq, Repr

/-- How the polling phase ended: `completed` via the `is_processed` break,
`failed reason` via the `processing_error` break, `timedOut` by exhausting
`max_polls` iterations, `raised` when `.json()` raised out of the loop. -/
inductive Outcome where
  | completed : Outcome
  | failed : String → Outcome
  | timedOut : Outcome
  | raised : Outcome
deriving DecidableEq, Repr

/-- Result of the polling phase: terminal outcome, the final value of
`poll_count`, the list of progress emissions in order, and whether the
post-loop `poll_count >= max_polls` warning ("taking longer than
expected") was displayed. -/
structure RunResult where
  outcome : Outcome
  attempts : ℕ
  trace : List Obs
  timedOutWarning : Bool
deriving DecidableEq, Repr

/-- The polling loop of source lines 424-495, by recursion on the remaining
iterations `fuel` (the loop guard `poll_count < max_polls` makes
`max_polls - poll_count` the number of iterations left).  `c` is the
current `poll_count`, `t` the emissions so far in reverse order. Each
iteration suspends (`time.sleep(15)`), increments `poll_count` and issues
exactly one status query.  On a 200 response the progress observation
`min(poll_count / max_polls, 0.90)` is emitted before the terminal checks;
`is_processed` is checked before `processing_error`.  After the loop, the
timeout warning is shown iff `poll_count >= max_polls`; an exception
escaping the loop skips that check. -/
def pollLoop (q : ℕ → QueryResult) (N : ℕ) : ℕ → ℕ → List Obs → RunResult
  | c, 0, t => ⟨.timedOut, c, t.reverse, decide (N ≤ c)⟩
  | c, f + 1, t =>
    match q (c + 1) with
    | .failure => pollLoop q N (c + 1) f t
    | .malformed => ⟨.raised, c + 1, t.reverse, false⟩
    | .success d =>
      let t2 : List Obs := ⟨c + 1, progressAt (c + 1) N⟩ :: t
      if d.is_processed then
        ⟨.completed, c + 1, t2.reverse, decide (N ≤ c + 1)⟩
      else
        match truthyErr d.processing_error with
        | some r => ⟨.failed r, c + 1, t2.reverse, decide (N ≤ c + 1)⟩
        | none => pollLoop q N (c + 1) f t2

/-- The whole polling phase: `poll_count = 0`, `max_polls = N` iterations
available, empty trace. The source uses `max_polls = 60`. -/
def run (q : ℕ → QueryResult) (N : ℕ) : RunResult :=
  pollLoop q N 0 N []

/-- Result of the upload call (source lines 396-404): `failure` is a `None`
return or a non-201 status (the page shows "Failed to upload file" and no
polling happens); `malformed` is a 201 response whose `.json()` raises;
`missingId` is a 201 response whose parsed body lacks `['data']['id']`
(the subscription raises `KeyError`); `ok id` is a well-formed 201
response. -/
inductive UploadResult where
  | failure : UploadResult
  | malformed : UploadResult
  | missingId : UploadResult
  | ok : ℕ → UploadResult
deriving DecidableEq, Repr

/-- Result of the process-trigger call (source lines 409-415): `failure`
is a `None` return or a non-200 status (the page shows "Failed to start
processing" and no polling happens); `malformed` is a 200 response whose
unguarded `.json()` at line 415 raises; `ok` is a 200 response with a
parseable body (its content is never used afterwards). -/
inductive ProcessResult where
  | failure : ProcessResult
  | malformed : ProcessResult
  | ok : ProcessResult
deriving DecidableEq, Repr

/-- One element of the processed-files `results` list as the completion
path reads it: `chatfile` is `f.get('chatfile')` (line 453); the remaining
fields are `none` when the key the code subscripts (lines 465, 467, 474,
480) is missing, in which case that subscription raises `KeyError`. -/
structure ProcessedFile where
  chatfile : Option ℕ
  total_messages : Option ℕ
  total_orders : Option ℕ
  id : Option ℕ
  file_name : Option String
deriving DecidableEq, Repr

/-- Result of the processed-files fetch after completion (source lines
445-447): `failure` is a `None` return or a non-200 status (the display
block is skipped and the loop breaks); `malformed` is a 200 response whose
unguarded `.json().get('results', [])` at line 447 raises; `ok files` is a
200 response with a parsed `results` list. -/
inductive ProcessedFilesResult where
  | failure : ProcessedFilesResult
  | malformed : ProcessedFilesResult
  | ok : List ProcessedFile → ProcessedFilesResult
deriving DecidableEq, Repr

/-- A processed-file record carrying every key the display path
subscripts (lines 465, 467, 474, 480). -/
def wellFormedFile (f : ProcessedFile) : Bool :=
  f.total_messages.isSome && f.total_orders.isSome && f.id.isSome &&
    f.file_name.isSome

/-- A processed-files response on which the completion display path is
raise-free: not malformed, and every record carries the subscripted
keys. -/
def ProcessedFilesResult.wellFormed : ProcessedFilesResult → Bool
  | .failure => true
  | .malformed => false
  | .ok files => files.all wellFormedFile

/-- The completion display path (source lines 444-482), entered when the
loop breaks through the `is_processed` branch: fetch the processed-files
list, search it for the record whose `chatfile` equals `chat_file_id` (the
`next` at line 453, whose `KeyError`/`TypeError` are caught at 454), and
if one is found subscript `['total_messages']` (line 465) and
`['total_orders']` (line 467); when the download button is pressed,
subscript `['id']` (line 474) and — if the download call returns 200 —
`['file_name']` (line 480).  Returns `true` when the path reaches the
`break` at line 483 without an uncaught exception. -/
def completionAftermath (pf : ProcessedFilesResult) (chatFileId : ℕ)
    (downloadClicked : Bool) (downloadOk : Bool) : Bool :=
  match pf with
  | .failure => true
  | .malformed => false
  | .ok files =>
    match files.find? (fun f => f.chatfile == some chatFileId) with
    | none => true
    | some f =>
      match f.total_messages with
      | none => false
      | some _ =>
        match f.total_orders with
        | none => false
        | some _ =>
          if downloadClicked then
            match f.id with
            | none => false
            | some _ =>
              if downloadOk then
                match f.file_name with
                | none => false
                | some _ => true
              else true
          else true

/-- Terminal result of the whole `Process & Extract Orders` workflow:
upload error value, uncaught exception while reading the upload response,
process-trigger error value, uncaught exception while reading the
process-trigger response, uncaught exception in the completion display
path, or the polling phase's result. -/
inductive WorkflowResult where
  | uploadFailed : WorkflowResult
  | raisedInUpload : WorkflowResult
  | processTriggerFailed : WorkflowResult
  | raisedInProcessTrigger : WorkflowResult
  | raisedInCompletionDisplay : RunResult → WorkflowResult
  | polled : RunResult → WorkflowResult
deriving DecidableEq, Repr

/-- The workflow of source lines 394-500: upload, read `['data']['id']`,
trigger processing and read its body, poll, and on a completed run walk
the completion display path. -/
def workflow (u : UploadResult) (p : ProcessResult) (q : ℕ → QueryResult)
    (N : ℕ) (pf : ProcessedFilesResult)
    (downloadClicked downloadOk : Bool) : WorkflowResult :=
  match u with
  | .failure => .uploadFailed
  | .malformed => .raisedInUpload
  | .missingId => .raisedInUpload
  | .ok chatFileId =>
    match p with
    | .failure => .processTriggerFailed
    | .malformed => .raisedInProcessTrigger
    | .ok =>
      let r := run q N
      match r.outcome with
      | .completed =>
        if completionAftermath pf chatFileId downloadClicked downloadOk then
          .polled r
        else
          .raisedInCompletionDisplay r
      | _ => .polled r

/-- Whether the workflow delivered its terminal result as a value (rather
than letting an exception escape the page handler). -/
def WorkflowResult.isValue : WorkflowResult → Bool
  | .uploadFailed => true
  | .raisedInUpload => false
  | .processTriggerFailed => true
  | .raisedInProcessTrigger => false
  | .raisedInCompletionDisplay _ => false
  | .polled r =>
    match r.outcome with
    | .raised => false
    | _ => true

/-- A status query that always returns 200 with a non-terminal body. -/
def alwaysPending : ℕ → QueryResult := fun _ => .success ⟨false, none⟩

/-- A status query that always fails (connection error / timeout /
non-200). -/
def alwaysFailing : ℕ → QueryResult := fun _ => .failure

/-- A status query that always reports a processing error. -/
def alwaysErroring : ℕ → QueryResult := fun _ => .success ⟨false, some "boom"⟩

/-- The spec's scenario: three transient query failures, then a completion
signal on attempt 4. -/
def threeFailuresThenComplete : ℕ → QueryResult :=
  fun k => if k ≤ 3 then .failure else .success ⟨true, none⟩

/-- Non-terminal bodies on attempts 1..59, a completion signal exactly on
attempt 60 (the final allowed attempt for the source's `max_polls = 60`). -/
def completeOnFinalAttempt : ℕ → QueryResult :=
  fun k => if k < 60 then .success ⟨false, none⟩ else .success ⟨true, none⟩

/-- A failed query on attempt 1, then a completion signal on attempt 2. -/
def failThenComplete : ℕ → QueryResult :=
  fun k => if k ≤ 1 then .failure else .success ⟨true, none⟩

/-- A body carrying both a completion signal and a non-null processing
error. -/
def bothSignals : ℕ → QueryResult :=
  fun _ => .success ⟨true, some "late error"⟩

/-- A 200 response whose body `.json()` cannot parse, on every attempt. -/
def alwaysMalformed : ℕ → QueryResult := fun _ => .malformed

/-- A status query that returns a completion signal on every attempt. -/
def alwaysComplete : ℕ → QueryResult := fun _ => .success ⟨true, none⟩

/-!
## Lemmas about the polling loop
-/

/-- `pymin` agrees with the lattice `min` on `ℚ`. -/
theorem pymin_eq_min (a b : ℚ) : pymin a b = min a b := (min_def a b).symm

/-- `progressAt` is the textbook `min(k/N, 9/10)`. -/
theorem progressAt_eq (k N : ℕ) :
    progressAt k N = min ((k : ℚ) / (N : ℚ)) (9 / 10) := by
  have h1 : (mkRat k N : ℚ) = (k : ℚ) / (N : ℚ) := by
    rw [Rat.mkRat_eq_div]; push_cast; ring
  have h2 : (mkRat 9 10 : ℚ) = (9 : ℚ) / 10 := by
    rw [Rat.mkRat_eq_div]; norm_num
  rw [progressAt, pymin_eq_min, h1, h2]

/-- With no iterations left the loop exits through the `poll_count >=
max_polls` check. -/
theorem pollLoop_zero (q : ℕ → QueryResult) (N c : ℕ) (t : List Obs) :
    pollLoop q N c 0 t = ⟨.timedOut, c, t.reverse, decide (N ≤ c)⟩ := rfl

/-- An inconclusive attempt recurses with the count incremented: the
attempt is consumed and the loop continues. -/
theorem pollLoop_skip (q : ℕ → QueryResult) (N c f : ℕ) (t : List Obs)
    (h : (q (c + 1)).inconclusive = true) :
    ∃ t2, pollLoop q N c (f + 1) t = pollLoop q N (c + 1) f t2 := by
  cases hq : q (c + 1) with
  | failure => exact ⟨t, by simp [pollLoop, hq]⟩
  | malformed => simp [QueryResult.inconclusive, hq] at h
  | success d =>
    refine ⟨⟨c + 1, progressAt (c + 1) N⟩ :: t, ?_⟩
    simp only [QueryResult.inconclusive, hq, Bool.and_eq_true,
      Bool.not_eq_true', Option.isNone_iff_eq_none] at h
    simp [pollLoop, hq, h.1, h.2]

/-- A block of `m` inconclusive attempts is skipped, consuming `m` units of
fuel and incrementing the count by `m`. -/
theorem pollLoop_skip_many (q : ℕ → QueryResult) (N : ℕ) :
    ∀ (m c f : ℕ) (t : List Obs),
      (∀ j, c < j → j ≤ c + m → (q j).inconclusive = true) →
      ∃ t2, pollLoop q N c (f + m) t = pollLoop q N (c + m) f t2
  | 0, c, f, t, _ => ⟨t, rfl⟩
  | m + 1, c, f, t, h => by
    have h1 : (q (c + 1)).inconclusive = true := h (c + 1) (by omega) (by omega)
    obtain ⟨t2, ht2⟩ := pollLoop_skip q N c (f + m) t h1
    obtain ⟨t3, ht3⟩ := pollLoop_skip_many q N m (c + 1) f t2
      (fun j hj1 hj2 => h j (by omega) (by omega))
    refine ⟨t3, ?_⟩
    rw [show f + (m + 1) = f + m + 1 from rfl, ht2, ht3,
      show c + 1 + m = c + (m + 1) by omega]

/-- A completion signal breaks out of the loop at once, after the progress
emission of the same attempt. -/
theorem pollLoop_complete (q : ℕ → QueryResult) (N c f : ℕ) (t : List Obs)
    (d : StatusData) (hq : q (c + 1) = .success d)
    (hd : d.is_processed = true) :
    pollLoop q N c (f + 1) t =
      ⟨.completed, c + 1, (⟨c + 1, progressAt (c + 1) N⟩ :: t).reverse,
        decide (N ≤ c + 1)⟩ := by
  simp [pollLoop, hq, hd]

/-- A processing-error signal breaks out of the loop at once, after the
progress emission of the same attempt. -/
theorem pollLoop_failed (q : ℕ → QueryResult) (N c f : ℕ) (t : List Obs)
    (d : StatusData) (r : String) (hq : q (c + 1) = .success d)
    (hd : d.is_processed = false)
    (he : truthyErr d.processing_error = some r) :
    pollLoop q N c (f + 1) t =
      ⟨.failed r, c + 1, (⟨c + 1, progressAt (c + 1) N⟩ :: t).reverse,
        decide (N ≤ c + 1)⟩ := by
  simp [pollLoop, hq, hd, he]

/-- The final `poll_count` never exceeds the starting count plus the fuel:
no run performs more than `max_polls` attempts. -/
theorem pollLoop_attempts_le (q : ℕ → QueryResult) (N : ℕ) :
    ∀ (f c : ℕ) (t : List Obs), (pollLoop q N c f t).attempts ≤ c + f
  | 0, c, t => Nat.le_add_right c 0
  | f + 1, c, t => by
    cases hq : q (c + 1) with
    | failure =>
      have h := pollLoop_attempts_le q N f (c + 1) t
      simp only [pollLoop, hq]
      omega
    | malformed =>
      simp only [pollLoop, hq]
      omega
    | success d =>
      by_cases hd : d.is_processed = true
      · rw [pollLoop_complete q N c f t d hq hd]
        show c + 1 ≤ c + (f + 1)
        omega
      · rw [Bool.not_eq_true] at hd
        cases he : truthyErr d.processing_error with
        | some r =>
          rw [pollLoop_failed q N c f t d r hq hd he]
          show c + 1 ≤ c + (f + 1)
          omega
        | none =>
          have h := pollLoop_attempts_le q N f (c + 1)
            (⟨c + 1, progressAt (c + 1) N⟩ :: t)
          simp only [pollLoop, hq, hd, he]
          exact le_trans h (by omega)

/-- If every attempt up to the budget is inconclusive, the run exhausts the
budget: `TimedOut` outcome, exactly `N` attempts, warning shown. -/
theorem run_timeout_of_inconclusive (q : ℕ → QueryResult) (N : ℕ)
    (h : ∀ j, 1 ≤ j → j ≤ N → (q j).inconclusive = true) :
    (run q N).outcome = .timedOut ∧ (run q N).attempts = N ∧
      (run q N).timedOutWarning = true := by
  obtain ⟨t2, ht2⟩ := pollLoop_skip_many q N N 0 0 []
    (fun j hj1 hj2 => h j (by omega) (by omega))
  rw [Nat.zero_add] at ht2
  have hrun : run q N = pollLoop q N N 0 t2 := ht2
  rw [hrun, pollLoop_zero]
  exact ⟨rfl, rfl, by simp⟩

/-- If the first `k - 1` attempts are inconclusive, the run reaches attempt
`k` with `N - k + 1` units of fuel left. -/
theorem run_reaches (q : ℕ → QueryResult) (N k : ℕ) (hk1 : 1 ≤ k)
    (hkN : k ≤ N)
    (hpre : ∀ j, 1 ≤ j → j < k → (q j).inconclusive = true) :
    ∃ t2, run q N = pollLoop q N (k - 1) (N - k + 1) t2 := by
  obtain ⟨t2, ht2⟩ := pollLoop_skip_many q N (k - 1) 0 (N - k + 1) []
    (fun j hj1 hj2 => hpre j (by omega) (by omega))
  rw [Nat.zero_add, show N - k + 1 + (k - 1) = N by omega] at ht2
  exact ⟨t2, ht2⟩

/-- Trace invariant: every emitted observation carries the progress
fraction of its own attempt number. -/
theorem pollLoop_trace_progress (q : ℕ → QueryResult) (N : ℕ) :
    ∀ (f c : ℕ) (t : List Obs),
      (∀ o ∈ t, o.progress = progressAt o.attempt N) →
      ∀ o ∈ (pollLoop q N c f t).trace, o.progress = progressAt o.attempt N
  | 0, c, t, ht => fun o ho => ht o (List.mem_reverse.mp ho)
  | f + 1, c, t, ht => by
    intro o ho
    have hnew : ∀ o2 ∈ (⟨c + 1, progressAt (c + 1) N⟩ : Obs) :: t,
        o2.progress = progressAt o2.attempt N := by
      intro o2 ho2
      rcases List.mem_cons.mp ho2 with h | h
      · rw [h]
      · exact ht o2 h
    cases hq : q (c + 1) with
    | failure =>
      rw [show pollLoop q N c (f + 1) t = pollLoop q N (c + 1) f t
        by simp [pollLoop, hq]] at ho
      exact pollLoop_trace_progress q N f (c + 1) t ht o ho
    | malformed =>
      rw [show pollLoop q N c (f + 1) t =
        ⟨.raised, c + 1, t.reverse, false⟩ by simp [pollLoop, hq]] at ho
      exact ht o (List.mem_reverse.mp ho)
    | success d =>
      by_cases hd : d.is_processed = true
      · rw [pollLoop_complete q N c f t d hq hd] at ho
        exact hnew o (List.mem_reverse.mp ho)
      · rw [Bool.not_eq_true] at hd
        cases he : truthyErr d.processing_error with
        | some r =>
          rw [pollLoop_failed q N c f t d r hq hd he] at ho
          exact hnew o (List.mem_reverse.mp ho)
        | none =>
          rw [show pollLoop q N c (f + 1) t =
            pollLoop q N (c + 1) f (⟨c + 1, progressAt (c + 1) N⟩ :: t)
            by simp [pollLoop, hq, hd, he]] at ho
          exact pollLoop_trace_progress q N f (c + 1) _ hnew o ho

/-- If no status body is malformed, no exception escapes the loop. -/
theorem pollLoop_no_raise (q : ℕ → QueryResult) (N : ℕ)
    (hq : ∀ k, q k ≠ .malformed) :
    ∀ (f c : ℕ) (t : List Obs), (pollLoop q N c f t).outcome ≠ .raised
  | 0, c, t => by rw [pollLoop_zero]; intro h; cases h
  | f + 1, c, t => by
    cases hk : q (c + 1) with
    | failure =>
      rw [show pollLoop q N c (f + 1) t = pollLoop q N (c + 1) f t
        by simp [pollLoop, hk]]
      exact pollLoop_no_raise q N hq f (c + 1) t
    | malformed => exact absurd hk (hq (c + 1))
    | success d =>
      by_cases hd : d.is_processed = true
      · rw [pollLoop_complete q N c f t d hk hd]
        intro h; cases h
      · rw [Bool.not_eq_true] at hd
        cases he : truthyErr d.processing_error with
        | some r =>
          rw [pollLoop_failed q N c f t d r hk hd he]
          intro h; cases h
        | none =>
          rw [show pollLoop q N c (f + 1) t =
            pollLoop q N (c + 1) f (⟨c + 1, progressAt (c + 1) N⟩ :: t)
            by simp [pollLoop, hk, hd, he]]
          exact pollLoop_no_raise q N hq f (c + 1) _

/-- A well-formed processed-files response never raises in the completion
display path, whatever record matches and whether or not the download
button is pressed. -/
theorem completionAftermath_of_wellFormed (pf : ProcessedFilesResult)
    (i : ℕ) (dc dok : Bool) (h : pf.wellFormed = true) :
    completionAftermath pf i dc dok = true := by
  cases pf with
  | failure => rfl
  | malformed => simp [ProcessedFilesResult.wellFormed] at h
  | ok files =>
    cases hf : files.find? (fun f => f.chatfile == some i) with
    | none => simp [completionAftermath, hf]
    | some f =>
      have hwf : wellFormedFile f = true := by
        rw [ProcessedFilesResult.wellFormed] at h
        exact List.all_eq_true.mp h f (List.mem_of_find?_eq_some hf)
      simp only [wellFormedFile, Bool.and_eq_true] at hwf
      obtain ⟨⟨⟨h1, h2⟩, h3⟩, h4⟩ := hwf
      obtain ⟨m, hm⟩ := Option.isSome_iff_exists.mp h1
      obtain ⟨o, ho⟩ := Option.isSome_iff_exists.mp h2
      obtain ⟨idv, hid⟩ := Option.isSome_iff_exists.mp h3
      obtain ⟨fn, hfn⟩ := Option.isSome_iff_exists.mp h4
      simp [completionAftermath, hf, hm, ho, hid, hfn]

/-!
## Claim theorems
-/

/-- C1: for every `max_attempts = N`, if every status query returns a
non-terminal state (`is_processed` falsy and no truthy
`processing_error`), the loop performs exactly `N` polling attempts (each
loop iteration is one `time.sleep(poll_interval)` suspension followed by
one status query) and terminates through the timed-out exit with
`poll_count = N` and the timeout warning displayed. -/
theorem c1_nonterminal_forever_times_out (q : ℕ → QueryResult) (N : ℕ)
    (h : ∀ k, 1 ≤ k → k ≤ N → ∃ d, q k = .success d ∧
      d.is_processed = false ∧ truthyErr d.processing_error = none) :
    (run q N).outcome = .timedOut ∧ (run q N).attempts = N ∧
      (run q N).timedOutWarning = true := by
  refine run_timeout_of_inconclusive q N (fun j h1 h2 => ?_)
  obtain ⟨d, hq, hp, he⟩ := h j h1 h2
  simp [QueryResult.inconclusive, hq, hp, he]

/-- Witness for C1: three non-terminal responses against a budget of 3. -/
theorem c1_nonterminal_forever_times_out_witness :
    (run alwaysPending 3).outcome = .timedOut ∧
      (run alwaysPending 3).attempts = 3 ∧
      (run alwaysPending 3).timedOutWarning = true :=
  c1_nonterminal_forever_times_out alwaysPending 3
    (fun _ _ _ => ⟨⟨false, none⟩, rfl, rfl, rfl⟩)

/-- C2: if the first `k - 1` attempts are inconclusive and attempt `k ≤ N`
returns a completion signal, the run terminates with the completed outcome
after exactly `k` attempts (each attempt issues exactly one status query,
so no query for attempt `k + 1` is ever issued). -/
theorem c2_completion_on_attempt_k (q : ℕ → QueryResult) (N k : ℕ)
    (d : StatusData) (hk1 : 1 ≤ k) (hkN : k ≤ N)
    (hpre : ∀ j, 1 ≤ j → j < k → (q j).inconclusive = true)
    (hq : q k = .success d) (hd : d.is_processed = true) :
    (run q N).outcome = .completed ∧ (run q N).attempts = k := by
  obtain ⟨t2, ht2⟩ := run_reaches q N k hk1 hkN hpre
  have hk : k - 1 + 1 = k := by omega
  have hq2 : q (k - 1 + 1) = .success d := by rw [hk]; exact hq
  rw [ht2, show N - k + 1 = N - k + 1 from rfl,
    pollLoop_complete q N (k - 1) (N - k) t2 d hq2 hd]
  exact ⟨rfl, hk⟩

/-- Witness for C2: a failed query on attempt 1, completion on attempt 2,
budget 5. -/
theorem c2_completion_on_attempt_k_witness :
    (run failThenComplete 5).outcome = .completed ∧
      (run failThenComplete 5).attempts = 2 :=
  c2_completion_on_attempt_k failThenComplete 5 2 ⟨true, none⟩
    (by omega) (by omega)
    (fun j h1 h2 => by
      have hj : j = 1 := by omega
      rw [hj]; rfl)
    (by rfl) rfl

/-- C3 (code bug): with `max_polls = 60` and a completion signal arriving
exactly on attempt 60, the run completes with 60 attempts, yet the
post-loop `poll_count >= max_polls` check still displays the timed-out
warning ("Processing is taking longer than expected"), overwriting the
success status text: the timeout message is not reserved for runs that saw
no terminal signal, contradicting the claim and the spec's tie-break
policy. -/
theorem c3_final_attempt_completion_also_warns :
    (run completeOnFinalAttempt 60).outcome = .completed ∧
      (run completeOnFinalAttempt 60).attempts = 60 ∧
      (run completeOnFinalAttempt 60).timedOutWarning = true := by
  decide

/-- C4: every progress emission on attempt `k` of a budget-`N` run carries
exactly `min(k / N, 0.90)`; concretely, with the source's `max_polls = 60`
the observations of attempts 54 and 55 both carry exactly `9/10` (the cap
is reached at `54/60 = 0.9` and holds thereafter). -/
theorem c4_progress_is_min_of_cap :
    (∀ (q : ℕ → QueryResult) (N : ℕ) (o : Obs), o ∈ (run q N).trace →
        o.progress = min ((o.attempt : ℚ) / (N : ℚ)) (9 / 10)) ∧
      ((⟨54, (9 : ℚ) / 10⟩ : Obs) ∈ (run alwaysPending 60).trace) ∧
      ((⟨55, (9 : ℚ) / 10⟩ : Obs) ∈ (run alwaysPending 60).trace) := by
  have hcap : (9 : ℚ) / 10 = mkRat 9 10 := by
    rw [Rat.mkRat_eq_div]; norm_num
  refine ⟨?_, ?_, ?_⟩
  · intro q N o ho
    rw [← progressAt_eq]
    exact pollLoop_trace_progress q N N 0 [] (by simp) o ho
  · rw [hcap]; decide
  · rw [hcap]; decide

/-- Witness for C4: the universally quantified clause applied to the
attempt-54 observation of a concrete run. -/
theorem c4_progress_is_min_of_cap_witness :
    (⟨54, (9 : ℚ) / 10⟩ : Obs).progress =
      min (((⟨54, (9 : ℚ) / 10⟩ : Obs).attempt : ℚ) / ((60 : ℕ) : ℚ))
        (9 / 10) :=
  c4_progress_is_min_of_cap.1 alwaysPending 60 ⟨54, (9 : ℚ) / 10⟩
    c4_progress_is_min_of_cap.2.1

/-- C5 counterexample: in the spec's own scenario (three transient query
failures, then completion on attempt 4, budget 60) the emission trace does
not have length 3, and it does contain an observation for the terminal
attempt 4 — the source emits progress before the terminal checks and emits
nothing on failed-query attempts. -/
theorem c5_counterexample_terminal_attempt_observed :
    (run threeFailuresThenComplete 60).outcome = .completed ∧
      (run threeFailuresThenComplete 60).trace.length ≠ 3 ∧
      ∃ o ∈ (run threeFailuresThenComplete 60).trace, o.attempt = 4 := by
  decide

/-- C5 (amended): progress is emitted exactly on attempts whose query
returns HTTP 200 with a parseable body — including the attempt carrying
the terminal signal, since the emission precedes the terminal checks — and
not on failed-query attempts; in the scenario of three transient failures
then completion on attempt 4 the run completes after 4 attempts with a
trace of length 1, its single observation being for attempt 4 with
progress `min(4/60, 0.9) = 1/15`. -/
theorem c5_amended_trace_of_scenario :
    (run threeFailuresThenComplete 60).outcome = .completed ∧
      (run threeFailuresThenComplete 60).attempts = 4 ∧
      (run threeFailuresThenComplete 60).trace =
        [⟨4, (1 : ℚ) / 15⟩] := by
  have h : (1 : ℚ) / 15 = mkRat 1 15 := by
    rw [Rat.mkRat_eq_div]; norm_num
  rw [h]
  decide

/-- C6: a processing-error signal received on attempt `k` (after `k - 1`
inconclusive attempts) terminates the loop at once with the failed outcome
and exactly `k` attempts, for every budget `N ≥ k`; in particular an error
on the first attempt gives exactly 1 attempt regardless of `N`. -/
theorem c6_processing_error_fails_immediately (q : ℕ → QueryResult)
    (N k : ℕ) (d : StatusData) (r : String) (hk1 : 1 ≤ k) (hkN : k ≤ N)
    (hpre : ∀ j, 1 ≤ j → j < k → (q j).inconclusive = true)
    (hq : q k = .success d) (hd : d.is_processed = false)
    (he : truthyErr d.processing_error = some r) :
    (run q N).outcome = .failed r ∧ (run q N).attempts = k := by
  obtain ⟨t2, ht2⟩ := run_reaches q N k hk1 hkN hpre
  have hk : k - 1 + 1 = k := by omega
  have hq2 : q (k - 1 + 1) = .success d := by rw [hk]; exact hq
  rw [ht2, pollLoop_failed q N (k - 1) (N - k) t2 d r hq2 hd he]
  exact ⟨rfl, hk⟩

/-- Witness for C6: a processing error on the very first attempt with the
source's default budget of 60. -/
theorem c6_processing_error_fails_immediately_witness :
    (run alwaysErroring 60).outcome = .failed "boom" ∧
      (run alwaysErroring 60).attempts = 1 :=
  c6_processing_error_fails_immediately alwaysErroring 60 1
    ⟨false, some "boom"⟩ "boom" (by omega) (by omega)
    (fun j h1 h2 => absurd h1 (by omega)) rfl rfl (by decide)

/-- C7: a transiently failed status query consumes one attempt from the
budget and the loop merely moves on to the next interval (first clause);
no run ever performs more than `max_polls` attempts (second clause); and a
run whose attempts are all inconclusive — failed queries included — still
times out after exactly `N` attempts (third clause). -/
theorem c7_failed_query_counts_and_continues (q : ℕ → QueryResult)
    (N : ℕ) :
    (∀ (c f : ℕ) (t : List Obs), q (c + 1) = .failure →
        pollLoop q N c (f + 1) t = pollLoop q N (c + 1) f t) ∧
      (run q N).attempts ≤ N ∧
      ((∀ j, 1 ≤ j → j ≤ N → (q j).inconclusive = true) →
        (run q N).outcome = .timedOut ∧ (run q N).attempts = N) := by
  refine ⟨fun c f t hq => by simp [pollLoop, hq], ?_, fun h => ?_⟩
  · have h := pollLoop_attempts_le q N N 0 []
    rw [Nat.zero_add] at h
    exact h
  · exact ⟨(run_timeout_of_inconclusive q N h).1,
      (run_timeout_of_inconclusive q N h).2.1⟩

/-- Witness for C7: the failure-step clause applied at attempt 1 of an
all-failures run with budget 2, plus its bound and timeout clauses. -/
theorem c7_failed_query_counts_and_continues_witness :
    (pollLoop alwaysFailing 2 0 2 [] = pollLoop alwaysFailing 2 1 1 []) ∧
      (run alwaysFailing 2).attempts ≤ 2 ∧
      ((run alwaysFailing 2).outcome = .timedOut ∧
        (run alwaysFailing 2).attempts = 2) :=
  ⟨(c7_failed_query_counts_and_continues alwaysFailing 2).1 0 1 [] rfl,
    (c7_failed_query_counts_and_continues alwaysFailing 2).2.1,
    (c7_failed_query_counts_and_continues alwaysFailing 2).2.2
      (fun _ _ _ => rfl)⟩

/-- C8 counterexample: the claim fails on the code — a 201 upload response
whose body lacks `['data']['id']` makes the subscription at source line
404 raise an uncaught `KeyError`; a 200 status response with an
unparseable body makes `.json()` at line 432 raise out of the loop; a 200
process-trigger response with an unparseable body makes `.json()` at line
415 raise; and after a completed run, a matching processed-file record
lacking `['total_messages']` makes the subscription at line 465 raise. In
every case no terminal outcome is delivered as a value. -/
theorem c8_counterexample_malformed_bodies_raise :
    (workflow .missingId .ok alwaysFailing 60 .failure
        false false).isValue = false ∧
      (workflow (.ok 7) .ok alwaysMalformed 60 .failure
        false false).isValue = false ∧
      (workflow (.ok 7) .malformed alwaysPending 60 .failure
        false false).isValue = false ∧
      (workflow (.ok 7) .ok alwaysComplete 60
        (.ok [⟨some 7, none, none, none, none⟩])
        false false).isValue = false := by
  decide

/-- C8 (amended): whenever every success-status body is well-formed — the
201 upload body contains `['data']['id']` (line 404), the 200
process-trigger body parses (line 415), every 200 status body parses
(line 432), and the 200 processed-files body parses with every record
carrying the keys the display path subscripts (lines 447, 465, 467, 474,
480) — the workflow reaches a terminal outcome delivered as a value,
never an uncaught exception. -/
theorem c8_amended_value_outcome_when_bodies_wellformed
    (u : UploadResult) (p : ProcessResult) (q : ℕ → QueryResult) (N : ℕ)
    (pf : ProcessedFilesResult) (dc dok : Bool)
    (hu1 : u ≠ .malformed) (hu2 : u ≠ .missingId) (hp : p ≠ .malformed)
    (hq : ∀ k, q k ≠ .malformed) (hpf : pf.wellFormed = true) :
    (workflow u p q N pf dc dok).isValue = true := by
  cases u with
  | failure => rfl
  | malformed => exact absurd rfl hu1
  | missingId => exact absurd rfl hu2
  | ok i =>
    cases p with
    | failure => rfl
    | malformed => exact absurd rfl hp
    | ok =>
      have hnr : (run q N).outcome ≠ .raised :=
        pollLoop_no_raise q N hq N 0 []
      have haft : completionAftermath pf i dc dok = true :=
        completionAftermath_of_wellFormed pf i dc dok hpf
      cases ho : (run q N).outcome with
      | completed => simp [workflow, WorkflowResult.isValue, ho, haft]
      | failed r => simp [workflow, WorkflowResult.isValue, ho]
      | timedOut => simp [workflow, WorkflowResult.isValue, ho]
      | raised => exact absurd ho hnr

/-- Witness for C8 (amended): an immediately-completed run whose
processed-file record carries every displayed key, with the download
button pressed and the download call succeeding. -/
theorem c8_amended_value_outcome_when_bodies_wellformed_witness :
    (workflow (.ok 7) .ok alwaysComplete 60
      (.ok [⟨some 7, some 10, some 2, some 1, some "orders.xlsx"⟩])
      true true).isValue = true :=
  c8_amended_value_outcome_when_bodies_wellformed (.ok 7) .ok
    alwaysComplete 60
    (.ok [⟨some 7, some 10, some 2, some 1, some "orders.xlsx"⟩])
    true true (fun h => UploadResult.noConfusion h)
    (fun h => UploadResult.noConfusion h)
    (fun h => ProcessResult.noConfusion h)
    (fun _ h => QueryResult.noConfusion h) (by decide)

/-- C10: on any attempt whose 200 body reports both a completion signal
and a non-null processing error, the `is_processed` check at source line
439 fires before the `processing_error` check at line 484: the loop
terminates with the completed outcome on that very attempt. -/
theorem c10_completion_precedes_error (q : ℕ → QueryResult) (N c f : ℕ)
    (t : List Obs) (d : StatusData) (hq : q (c + 1) = .success d)
    (hd : d.is_processed = true)
    (_he : d.processing_error.isSome = true) :
    (pollLoop q N c (f + 1) t).outcome = .completed ∧
      (pollLoop q N c (f + 1) t).attempts = c + 1 := by
  rw [pollLoop_complete q N c f t d hq hd]
  exact ⟨rfl, rfl⟩

/-- Witness for C10: a first-attempt body carrying both signals. -/
theorem c10_completion_precedes_error_witness :
    (pollLoop bothSignals 1 0 1 []).outcome = .completed ∧
      (pollLoop bothSignals 1 0 1 []).attempts = 1 :=
  c10_completion_precedes_error bothSignals 1 0 0 []
    ⟨true, some "late error"⟩ rfl rfl rfl

end OrdersApp
